import Mathlib

/-!
Verification development for the polyloly trading bot core.

Shallow embedding of `src/domain/types.py` and the two engines in
`src/domain/engines/` (truth_engine.py, trading_engine.py).

Modelling conventions:
* Python floats are embedded as `ℚ` (the code only ever adds, subtracts,
  multiplies, divides and compares prices/quantities).
* Python `raise` is embedded as `Except.error`; a function that cannot raise
  on the modelled paths keeps a pure type.
* Python `set`s and `dict`s are embedded as lists in insertion order with
  membership-guarded insertion (equality of these lists implies equality of
  the underlying sets/dicts).
* `float("inf")` as a return value of `effective_price_for_size` is embedded
  as `none : Option ℚ`.
* The 16-hex-character sha256 event hash is embedded as the injective key
  `(event_type, timestamp_ms, payload)`; collisions of the real hash are
  abstracted away.
* Wall-clock reads (`datetime.now`) that land in returned values are passed
  in explicitly as a `now_ms` argument; wall-clock fields that no claim
  mentions (`first_fill_at`, `entered_state_at`, ...) are omitted.
-/

namespace Polyloly

/-! ## Enums (types.py) -/

inductive Side
  | YES
  | NO
deriving DecidableEq, Repr

inductive TruthStatus
  | PRE_MATCH
  | LIVE
  | PAUSED
  | PENDING_CONFIRM
  | FINAL
deriving DecidableEq, Repr

inductive TradingStatus
  | IDLE
  | BUILDING_PAIR
  | LOCKED_PAIR
  | TEMPORAL_ACTIVE
  | FINALIZING
  | RESOLVED
  | HALT
deriving DecidableEq, Repr

inductive OrderStatus
  | PENDING
  | PLACED
  | MATCHED
  | MINED
  | CONFIRMED
  | REJECTED
  | CANCELLED
  | FAILED
deriving DecidableEq, Repr

inductive MatchEventType
  | MATCH_CREATED
  | MATCH_STARTED
  | PAUSED
  | RESUMED
  | MAP_STARTED
  | ROUND_ENDED
  | MAP_ENDED
  | SCORE_UPDATE
  | MATCH_ENDED
  | CORRECTION
deriving DecidableEq, Repr

inductive DataSourceTier
  | TIER_A
  | TIER_B
  | TIER_C
deriving DecidableEq, Repr

/-! ## Pair position arithmetic (types.py, `Fill` / `PairPosition`) -/

structure Fill where
  side : Side
  qty : ℚ
  price : ℚ
deriving DecidableEq, Repr

structure PairPosition where
  fee_rate : ℚ := 2/100
  q_yes : ℚ := 0
  q_no : ℚ := 0
  c_yes : ℚ := 0
  c_no : ℚ := 0
deriving DecidableEq, Repr

/-- `PairPosition.apply_fill`; the `ValueError` for a price outside `[0,1]`
is embedded as `Except.error`.  A fill with `qty ≤ 0` returns before the
price validation, exactly as in the source. -/
def PairPosition.apply_fill (p : PairPosition) (f : Fill) : Except String PairPosition :=
  if f.qty ≤ 0 then .ok p
  else if ¬ (0 ≤ f.price ∧ f.price ≤ 1) then .error "Price must be in [0, 1]"
  else
    match f.side with
    | .YES => .ok { p with q_yes := p.q_yes + f.qty, c_yes := p.c_yes + f.qty * f.price }
    | .NO => .ok { p with q_no := p.q_no + f.qty, c_no := p.c_no + f.qty * f.price }

def PairPosition.total_cost (p : PairPosition) : ℚ := p.c_yes + p.c_no

def PairPosition.q_min (p : PairPosition) : ℚ := min p.q_yes p.q_no

def PairPosition.payout_net (p : PairPosition) : ℚ := p.q_min * (1 - p.fee_rate)

def PairPosition.guaranteed_pnl (p : PairPosition) : ℚ := p.payout_net - p.total_cost

def PairPosition.avg_yes (p : PairPosition) : Option ℚ :=
  if p.q_yes ≤ 0 then none else some (p.c_yes / p.q_yes)

def PairPosition.avg_no (p : PairPosition) : Option ℚ :=
  if p.q_no ≤ 0 then none else some (p.c_no / p.q_no)

def PairPosition.pair_cost_avg (p : PairPosition) : Option ℚ :=
  match p.avg_yes, p.avg_no with
  | some ay, some an => some (ay + an)
  | _, _ => none

def PairPosition.leg_imbalance_usdc (p : PairPosition) : ℚ := |p.c_yes - p.c_no|

def PairPosition.leg_imbalance_shares (p : PairPosition) : ℚ := |p.q_yes - p.q_no|

/-- `PairPosition.hypo_buy`, kept fallible: the inner `apply_fill` raises when
`usdc_amount > 0`, `price > 0` and `price > 1`, and Python propagates that
`ValueError` to the caller of `hypo_buy`. -/
def PairPosition.hypo_buyE (p : PairPosition) (side : Side) (usdc_amount price : ℚ) :
    Except String PairPosition :=
  if usdc_amount ≤ 0 ∨ price ≤ 0 then .ok p
  else p.apply_fill { side := side, qty := usdc_amount / price, price := price }

/-- Total (infallible) reading of `hypo_buy`, used to state the §4.2 table:
on the inputs where the source raises, it returns the receiver unchanged. -/
def PairPosition.hypo_buy (p : PairPosition) (side : Side) (usdc_amount price : ℚ) :
    PairPosition :=
  match p.hypo_buyE side usdc_amount price with
  | .ok q => q
  | .error _ => p

/-! ## `should_buy_more` (types.py) -/

/-- Shared tail of `should_buy_more` after the pair-cost checks
(leg-imbalance check, then PnL-improvement check, then approval). -/
def sbm_rest (pos new_pos : PairPosition) (max_leg_imbalance_usdc : ℚ)
    (require_improve : Bool) : Bool × String :=
  if new_pos.leg_imbalance_usdc > max_leg_imbalance_usdc then (false, "leg_imbalance")
  else if require_improve then
    if new_pos.guaranteed_pnl ≤ pos.guaranteed_pnl then (false, "no_pnl_improvement")
    else (true, "approved")
  else (true, "approved")

/-- `should_buy_more` exactly as in `types.py`: the two cheap checks, then the
hypothetical buy (which can raise for `price > 1`), then the pair-cost checks
guarded on `pair_cost_avg` being defined, then the shared tail. -/
def should_buy_more (pos : PairPosition) (side : Side)
    (usdc_amount price pair_cost_cap max_total_cost max_leg_imbalance_usdc : ℚ)
    (require_improve : Bool) : Except String (Bool × String) :=
  if usdc_amount ≤ 0 then .ok (false, "zero_amount")
  else if pos.total_cost + usdc_amount > max_total_cost then .ok (false, "exceeds_max_total")
  else
    match pos.hypo_buyE side usdc_amount price with
    | .error e => .error e
    | .ok new_pos =>
      .ok <|
        match new_pos.pair_cost_avg with
        | some pc =>
          if pc ≥ 1 - new_pos.fee_rate then (false, "pair_cost_exceeds_net")
          else if pc ≥ pair_cost_cap then (false, "pair_cost_exceeds_cap")
          else sbm_rest pos new_pos max_leg_imbalance_usdc require_improve
        | none => sbm_rest pos new_pos max_leg_imbalance_usdc require_improve

/-- The §4.2 rejection table as written in the spec: one pass over the six
conditions in the fixed order, first firing check wins, approval otherwise.
Checks 3-6 read the `hypo_buy` projection `post`. -/
def should_buy_more_table (pos : PairPosition) (side : Side)
    (usdc_amount price pair_cost_cap max_total_cost max_leg_imbalance_usdc : ℚ)
    (require_improve : Bool) : Bool × String :=
  let post := pos.hypo_buy side usdc_amount price
  if usdc_amount ≤ 0 then (false, "zero_amount")
  else if pos.total_cost + usdc_amount > max_total_cost then (false, "exceeds_max_total")
  else if post.pair_cost_avg.elim false (fun pc => decide (pc ≥ 1 - post.fee_rate)) then
    (false, "pair_cost_exceeds_net")
  else if post.pair_cost_avg.elim false (fun pc => decide (pc ≥ pair_cost_cap)) then
    (false, "pair_cost_exceeds_cap")
  else if post.leg_imbalance_usdc > max_leg_imbalance_usdc then (false, "leg_imbalance")
  else if require_improve ∧ post.guaranteed_pnl ≤ pos.guaranteed_pnl then
    (false, "no_pnl_improvement")
  else (true, "approved")

/-! ## Order book (types.py, `OrderBookLevel` / `OrderBook`) -/

structure OrderBookLevel where
  price : ℚ
  size : ℚ
deriving DecidableEq, Repr

structure OrderBook where
  bids : List OrderBookLevel := []
  asks : List OrderBookLevel := []
deriving DecidableEq, Repr

def OrderBook.best_bid (b : OrderBook) : Option ℚ := b.bids.head?.map (·.price)

def OrderBook.best_ask (b : OrderBook) : Option ℚ := b.asks.head?.map (·.price)

def OrderBook.total_bid_liquidity (b : OrderBook) : ℚ :=
  (b.bids.map (fun l => l.price * l.size)).sum

def OrderBook.total_ask_liquidity (b : OrderBook) : ℚ :=
  (b.asks.map (fun l => l.price * l.size)).sum

/-- The level walk inside `effective_price_for_size`: threads
`(remaining, total_cost, total_qty)` through the levels, stopping early once
`remaining ≤ 0`, and returns the final `(total_cost, total_qty)`. -/
def walk_levels : List OrderBookLevel → ℚ → ℚ → ℚ → ℚ × ℚ
  | [], _, total_cost, total_qty => (total_cost, total_qty)
  | l :: ls, remaining, total_cost, total_qty =>
    let max_usdc_at_level := l.size * l.price
    let usdc_at_level := min remaining max_usdc_at_level
    let qty_at_level := usdc_at_level / l.price
    let total_cost := total_cost + usdc_at_level
    let total_qty := total_qty + qty_at_level
    let remaining := remaining - usdc_at_level
    if remaining ≤ 0 then (total_cost, total_qty)
    else walk_levels ls remaining total_cost total_qty

/-- `OrderBook.effective_price_for_size`; the `float("inf")` result is
embedded as `none`.  `Side.YES` walks the asks, `Side.NO` the bids. -/
def OrderBook.effective_price_for_size (b : OrderBook) (side : Side) (size_usdc : ℚ) :
    Option ℚ :=
  let levels := match side with | .YES => b.asks | .NO => b.bids
  let r := walk_levels levels size_usdc 0 0
  if r.2 = 0 then none else some (r.1 / r.2)

/-! ## Truth engine (engines/truth_engine.py) -/

/-- The payload keys the truth engine reads (`payload.get(...)`). -/
structure Payload where
  winner_team_id : Option String := none
  team_a_score : Option Int := none
  team_b_score : Option Int := none
  round_index : Option Int := none
  map_index : Option Int := none
deriving DecidableEq, Repr

structure MatchEvent where
  event_type : MatchEventType := .MATCH_CREATED
  source : String := ""
  source_tier : DataSourceTier := .TIER_B
  timestamp_ms : Int := 0
  payload : Payload := {}
  source_event_id : Option String := none
  seq : Option Int := none
deriving DecidableEq, Repr

/-- Key used by `_is_duplicate`: the `source_event_id` when present, otherwise
the (injectively modelled) content hash of `_hash_event`. -/
inductive DedupKey
  | src (id : String)
  | hashed (et : MatchEventType) (ts : Int) (payload : Payload)
deriving DecidableEq, Repr

def dedup_key (e : MatchEvent) : DedupKey :=
  match e.source_event_id with
  | some id => .src id
  | none => .hashed e.event_type e.timestamp_ms e.payload

structure TruthEngineConfig where
  confirm_threshold : ℚ := 9/10
  max_wait_ms : Int := 10000
  required_sources_for_final : Nat := 2
  allowed_skew_ms : Int := 2000
  tier_a_sources : List String := ["grid", "official"]
deriving DecidableEq, Repr

structure TruthState where
  status : TruthStatus := .PRE_MATCH
  team_a_id : String := ""
  team_b_id : String := ""
  score_a : Int := 0
  score_b : Int := 0
  map_index : Int := 0
  round_index : Int := 0
  confidence : ℚ := 0
  winner_team_id : Option String := none
  last_event_ms : Int := 0
  ended_at_ms : Option Int := none
  finalized_at_ms : Option Int := none
  seen_event_ids : List DedupKey := []
  last_seq : Option Int := none
  sources_confirming : List String := []
deriving DecidableEq, Repr

structure TruthDelta where
  delta_type : String := ""
  confidence : ℚ := 0
  sources : List String := []
  reason : Option String := none
deriving DecidableEq, Repr

structure TruthFinal where
  winner_team_id : String := ""
  confidence : ℚ := 0
  confirmed_by : List String := []
  finalized_at_ms : Int := 0
deriving DecidableEq, Repr

inductive TruthSignal
  | delta (d : TruthDelta)
  | final (f : TruthFinal)
deriving DecidableEq, Repr

def TruthState.is_effectively_final (s : TruthState) : Bool :=
  (s.status = TruthStatus.PENDING_CONFIRM ∨ s.status = TruthStatus.FINAL)
    ∧ s.confidence ≥ 85/100

def TruthState.winner_if_final (s : TruthState) : Option String :=
  if s.is_effectively_final then s.winner_team_id else none

/-- `_is_duplicate`: returns whether the event is a duplicate and the state
with the key recorded when it was not. -/
def TruthState.is_duplicate (s : TruthState) (e : MatchEvent) : Bool × TruthState :=
  let k := dedup_key e
  if k ∈ s.seen_event_ids then (true, s)
  else (false, { s with seen_event_ids := s.seen_event_ids ++ [k] })

/-- `_is_out_of_order`: sequence-number test when both sides carry one
(also recording `last_seq`), otherwise the timestamp/skew test. -/
def TruthState.is_out_of_order (s : TruthState) (cfg : TruthEngineConfig)
    (e : MatchEvent) : Bool × TruthState :=
  match e.seq, s.last_seq with
  | some sq, some ls =>
    if sq ≤ ls then (true, s) else (false, { s with last_seq := some sq })
  | _, _ =>
    if e.timestamp_ms < s.last_event_ms - cfg.allowed_skew_ms then (true, s)
    else (false, s)

/-- `_enter_pending_confirm`. -/
def enter_pending_confirm (s : TruthState) (e : MatchEvent) :
    TruthState × Option TruthSignal :=
  let conf : ℚ :=
    match e.source_tier with
    | .TIER_A => 90/100
    | .TIER_B => 80/100
    | .TIER_C => 70/100
  let s := { s with
    status := .PENDING_CONFIRM
    winner_team_id := e.payload.winner_team_id
    ended_at_ms := some e.timestamp_ms
    sources_confirming := [e.source]
    confidence := conf }
  (s, some (.delta { delta_type := "status", confidence := conf, sources := [e.source] }))

/-- `_add_confirmation`. -/
def add_confirmation (s : TruthState) (source : String) (tier : DataSourceTier) :
    TruthState :=
  if source ∈ s.sources_confirming then s
  else
    let s := { s with sources_confirming := s.sources_confirming ++ [source] }
    match tier with
    | .TIER_A => { s with confidence := min 1 (s.confidence + 10/100) }
    | .TIER_B => { s with confidence := min (95/100) (s.confidence + 8/100) }
    | .TIER_C => { s with confidence := min (90/100) (s.confidence + 3/100) }

/-- `_should_finalize`. -/
def should_finalize (cfg : TruthEngineConfig) (s : TruthState) : Bool :=
  if s.confidence ≥ cfg.confirm_threshold then true
  else if s.sources_confirming.any (fun src => cfg.tier_a_sources.contains src) then true
  else if s.sources_confirming.length ≥ cfg.required_sources_for_final then true
  else false

/-- `_finalize`; `now_ms` is the wall-clock instant the source reads. -/
def finalize_truth (now_ms : Int) (s : TruthState) : TruthState × Option TruthSignal :=
  let s := { s with status := .FINAL, finalized_at_ms := some now_ms }
  (s, some (.final {
    winner_team_id := s.winner_team_id.getD ""
    confidence := s.confidence
    confirmed_by := s.sources_confirming
    finalized_at_ms := now_ms }))

/-- `_on_event_pre_match`. -/
def on_event_pre_match (s : TruthState) (e : MatchEvent) :
    TruthState × Option TruthSignal :=
  match e.event_type with
  | .MATCH_STARTED =>
    ({ s with status := .LIVE },
      some (.delta { delta_type := "status", sources := [e.source] }))
  | .PAUSED =>
    ({ s with status := .PAUSED },
      some (.delta { delta_type := "status", sources := [e.source] }))
  | _ => (s, none)

/-- `_on_event_live`. -/
def on_event_live (s : TruthState) (e : MatchEvent) :
    TruthState × Option TruthSignal :=
  match e.event_type with
  | .PAUSED =>
    ({ s with status := .PAUSED },
      some (.delta { delta_type := "status", sources := [e.source] }))
  | .SCORE_UPDATE =>
    let old_score := (s.score_a, s.score_b)
    let s := { s with
      score_a := e.payload.team_a_score.getD s.score_a
      score_b := e.payload.team_b_score.getD s.score_b }
    if (s.score_a, s.score_b) ≠ old_score then
      (s, some (.delta { delta_type := "score", sources := [e.source] }))
    else (s, none)
  | .ROUND_ENDED =>
    let s := { s with round_index := e.payload.round_index.getD s.round_index }
    (s, some (.delta { delta_type := "round", confidence := 6/10, sources := [e.source] }))
  | .MAP_ENDED =>
    let s := { s with map_index := e.payload.map_index.getD s.map_index }
    (s, some (.delta { delta_type := "map", confidence := 75/100, sources := [e.source] }))
  | .MATCH_ENDED => enter_pending_confirm s e
  | _ => (s, none)

/-- `_on_event_paused`. -/
def on_event_paused (s : TruthState) (e : MatchEvent) :
    TruthState × Option TruthSignal :=
  match e.event_type with
  | .RESUMED =>
    ({ s with status := .LIVE },
      some (.delta { delta_type := "status", sources := [e.source] }))
  | .MATCH_ENDED => enter_pending_confirm s e
  | _ => (s, none)

/-- `_on_event_pending`. -/
def on_event_pending (cfg : TruthEngineConfig) (now_ms : Int) (s : TruthState)
    (e : MatchEvent) : TruthState × Option TruthSignal :=
  if e.event_type ≠ .MATCH_ENDED then (s, none)
  else
    let winner := e.payload.winner_team_id
    if winner = s.winner_team_id then
      let s := add_confirmation s e.source e.source_tier
      if should_finalize cfg s then finalize_truth now_ms s else (s, none)
    else
      let s := { s with
        status := .LIVE
        winner_team_id := none
        confidence := 0
        sources_confirming := []
        ended_at_ms := none }
      (s, some (.delta { delta_type := "status", reason := some "contradiction",
                         sources := [e.source] }))

/-- The status dispatch at the end of `TruthEngine.on_event`.
`_on_event_final` only logs, so the `FINAL` branch returns no signal. -/
def dispatch (cfg : TruthEngineConfig) (now_ms : Int) (s : TruthState)
    (e : MatchEvent) : TruthState × Option TruthSignal :=
  match s.status with
  | .PRE_MATCH => on_event_pre_match s e
  | .LIVE => on_event_live s e
  | .PAUSED => on_event_paused s e
  | .PENDING_CONFIRM => on_event_pending cfg now_ms s e
  | .FINAL => (s, none)

/-- `TruthEngine.on_event`: admission (dedup, ordering), then the
`last_event_ms` update, then the status dispatch. -/
def on_event (cfg : TruthEngineConfig) (now_ms : Int) (s : TruthState)
    (e : MatchEvent) : TruthState × Option TruthSignal :=
  let dup := s.is_duplicate e
  if dup.1 then (dup.2, none)
  else
    let ooo := dup.2.is_out_of_order cfg e
    if ooo.1 then (ooo.2, none)
    else
      dispatch cfg now_ms
        { ooo.2 with last_event_ms := max ooo.2.last_event_ms e.timestamp_ms } e

/-- `TruthEngine.tick`. -/
def truth_tick (cfg : TruthEngineConfig) (now_ms : Int) (s : TruthState) :
    TruthState × Option TruthSignal :=
  if s.status ≠ .PENDING_CONFIRM then (s, none)
  else
    match s.ended_at_ms with
    | none => (s, none)
    | some ended =>
      if now_ms - ended ≥ cfg.max_wait_ms then finalize_truth now_ms s
      else (s, none)

/-- The per-tier confidence cap inside `_add_confirmation` (the `min` bound:
A caps at 1.0, B at 0.95, C at 0.90). -/
def tier_cap : DataSourceTier → ℚ
  | .TIER_A => 1
  | .TIER_B => 95/100
  | .TIER_C => 90/100

/-- Fold a list of `(now_ms, event)` pairs through `on_event`, keeping states. -/
def run_events (cfg : TruthEngineConfig) (s : TruthState)
    (es : List (Int × MatchEvent)) : TruthState :=
  es.foldl (fun s p => (on_event cfg p.1 s p.2).1) s

/-! ## Trading engine (engines/trading_engine.py) -/

structure TradingEngineConfig where
  idle_after_no_opportunity_ticks : Nat := 100
  temporal_signal_ttl_ms : Int := 5000
  pair_cost_cap : ℚ := 975/1000
  fee_rate : ℚ := 2/100
  step_usdc : ℚ := 25
  max_total_cost : ℚ := 1500
  max_leg_imbalance_usdc : ℚ := 100
  max_consecutive_rejects : Nat := 3
  max_cancel_failures : Nat := 3
deriving DecidableEq, Repr

/-- The `Order` fields the trading engine reads or writes. -/
structure Order where
  status : OrderStatus := .PENDING
  reject_reason : Option String := none
deriving DecidableEq, Repr

structure CancelIntent where
  order_id : String
  reason : String := ""
deriving DecidableEq, Repr

structure OrderIntent where
  side : Side
  price : ℚ
  size : ℚ
  strategy : String := "pair_arb"
deriving DecidableEq, Repr

/-- The engine's mutable state: the `TradingState` fields the claims touch
plus the two engine-level fields `_no_opportunity_ticks` and
`_temporal_signal_at_ms`.  `open_orders` is the dict in insertion order. -/
structure TradingEngine where
  status : TradingStatus := .IDLE
  position : PairPosition := {}
  open_orders : List (String × Order) := []
  consecutive_rejects : Nat := 0
  consecutive_cancel_failures : Nat := 0
  no_opportunity_ticks : Nat := 0
  temporal_signal_at_ms : Option Int := none
deriving DecidableEq, Repr

/-- `_transition_to` (the timestamps it stamps are not modelled). -/
def TradingEngine.transition_to (eng : TradingEngine) (new_status : TradingStatus) :
    TradingEngine :=
  { eng with status := new_status }

/-- `_cancel_all_orders`: one intent per open order whose status is `PLACED`
or `PENDING`. -/
def TradingEngine.cancel_all_orders (eng : TradingEngine) : List CancelIntent :=
  (eng.open_orders.filter
      (fun p => p.2.status = OrderStatus.PLACED ∨ p.2.status = OrderStatus.PENDING)).map
    (fun p => { order_id := p.1, reason := "cancel_all" })

/-- `halt(reason)` (the reason only feeds the transition log). -/
def TradingEngine.halt (eng : TradingEngine) (_reason : String) :
    TradingEngine × List CancelIntent :=
  if eng.status = .HALT then (eng, [])
  else
    let eng := eng.transition_to .HALT
    (eng, eng.cancel_all_orders)

/-- `resume_from_halt()`. -/
def TradingEngine.resume_from_halt (eng : TradingEngine) : TradingEngine × Bool :=
  if eng.status ≠ .HALT then (eng, false)
  else
    let eng := { eng with consecutive_rejects := 0, consecutive_cancel_failures := 0 }
    (eng.transition_to .IDLE, true)

/-- `finalize()`. -/
def TradingEngine.finalize (eng : TradingEngine) : TradingEngine × List CancelIntent :=
  if eng.status = .RESOLVED ∨ eng.status = .HALT then (eng, [])
  else
    let eng := eng.transition_to .FINALIZING
    (eng, eng.cancel_all_orders)

/-- `resolve()`: unconditional transition. -/
def TradingEngine.resolve (eng : TradingEngine) : TradingEngine :=
  eng.transition_to .RESOLVED

/-- `_check_circuit_breaker`: the cancel intents the internal `halt` call
produces are discarded, exactly as the source drops `self.halt(reason)`'s
return value. -/
def check_circuit_breaker (cfg : TradingEngineConfig) (eng : TradingEngine) :
    TradingEngine × Bool :=
  if eng.status = .HALT then (eng, true)
  else
    let reason : Option String :=
      if eng.consecutive_cancel_failures ≥ cfg.max_cancel_failures then
        some "cancel_failures"
      else if eng.consecutive_rejects ≥ cfg.max_consecutive_rejects then
        some "consecutive_rejects"
      else none
    match reason with
    | some r => ((eng.halt r).1, true)
    | none => (eng, false)

/-- `on_order_rejected` (returns `None` in the source: the circuit-breaker
trip's cancel intents never reach the caller). -/
def on_order_rejected (cfg : TradingEngineConfig) (eng : TradingEngine)
    (order_id reason : String) : TradingEngine :=
  let eng := { eng with consecutive_rejects := eng.consecutive_rejects + 1 }
  let eng := { eng with open_orders := eng.open_orders.map (fun p =>
    if p.1 = order_id then
      (p.1, { p.2 with status := .REJECTED, reject_reason := some reason })
    else p) }
  (check_circuit_breaker cfg eng).1

/-- `on_order_success`. -/
def on_order_success (eng : TradingEngine) (order_id : String) : TradingEngine :=
  let eng := { eng with consecutive_rejects := 0 }
  { eng with open_orders := eng.open_orders.map (fun p =>
    if p.1 = order_id then (p.1, { p.2 with status := .PLACED }) else p) }

/-- `on_cancel_failure`. -/
def on_cancel_failure (cfg : TradingEngineConfig) (eng : TradingEngine)
    (_order_id : String) : TradingEngine :=
  let eng := { eng with
    consecutive_cancel_failures := eng.consecutive_cancel_failures + 1 }
  (check_circuit_breaker cfg eng).1

/-- `on_cancel_success`. -/
def on_cancel_success (eng : TradingEngine) (order_id : String) : TradingEngine :=
  let eng := { eng with consecutive_cancel_failures := 0 }
  { eng with open_orders := eng.open_orders.filter (fun p => p.1 ≠ order_id) }

/-- Helper for clearing `_temporal_signal_at_ms`. -/
def TradingEngine.temporal_signal_at_ms_clear (eng : TradingEngine) : TradingEngine :=
  { eng with temporal_signal_at_ms := none }

/-- `on_tick(now_ms)`. -/
def on_tick (cfg : TradingEngineConfig) (eng : TradingEngine) (now_ms : Int) :
    TradingEngine × List CancelIntent :=
  match eng.status with
  | .BUILDING_PAIR =>
    let eng := { eng with no_opportunity_ticks := eng.no_opportunity_ticks + 1 }
    if eng.no_opportunity_ticks ≥ cfg.idle_after_no_opportunity_ticks then
      (({ eng with no_opportunity_ticks := 0 }).transition_to .IDLE, [])
    else (eng, [])
  | .TEMPORAL_ACTIVE =>
    match eng.temporal_signal_at_ms with
    | some at_ms =>
      if now_ms - at_ms ≥ cfg.temporal_signal_ttl_ms then
        let intents := eng.cancel_all_orders
        ((eng.transition_to .IDLE).temporal_signal_at_ms_clear, intents)
      else (eng, [])
    | none => (eng, [])
  | _ => (eng, [])

/-- `_select_leg_to_buy`. -/
def select_leg_to_buy (eng : TradingEngine) (orderbook_yes orderbook_no : OrderBook) :
    Option Side :=
  let imbalance_shares := eng.position.q_yes - eng.position.q_no
  let threshold : ℚ := 20
  if imbalance_shares > threshold then some .NO
  else if imbalance_shares < -threshold then some .YES
  else
    match orderbook_yes.best_ask, orderbook_no.best_ask with
    | none, none => none
    | none, some _ => some .NO
    | some _, none => some .YES
    | some yes_ask, some no_ask =>
      if yes_ask < no_ask then some .YES else some .NO

/-- `_evaluate_pair_arb_opportunity`; the possible `ValueError` escaping
`should_buy_more` propagates. -/
def evaluate_pair_arb_opportunity (cfg : TradingEngineConfig) (eng : TradingEngine)
    (orderbook_yes orderbook_no : OrderBook) : Except String (Option OrderIntent) :=
  match select_leg_to_buy eng orderbook_yes orderbook_no with
  | none => .ok none
  | some side =>
    let orderbook := match side with | .YES => orderbook_yes | .NO => orderbook_no
    match orderbook.best_ask with
    | none => .ok none
    | some price =>
      match should_buy_more eng.position side cfg.step_usdc price cfg.pair_cost_cap
          cfg.max_total_cost cfg.max_leg_imbalance_usdc true with
      | .error e => .error e
      | .ok (allowed, _reason) =>
        if allowed then
          .ok (some { side := side, price := price, size := cfg.step_usdc })
        else .ok none

/-- `_handle_idle_orderbook`. -/
def handle_idle_orderbook (cfg : TradingEngineConfig) (eng : TradingEngine)
    (obY obN : OrderBook) : Except String (TradingEngine × Option OrderIntent) :=
  match evaluate_pair_arb_opportunity cfg eng obY obN with
  | .error e => .error e
  | .ok (some intent) =>
    .ok (({ eng with no_opportunity_ticks := 0 }).transition_to .BUILDING_PAIR,
      some intent)
  | .ok none => .ok (eng, none)

/-- `_handle_building_orderbook`. -/
def handle_building_orderbook (cfg : TradingEngineConfig) (eng : TradingEngine)
    (obY obN : OrderBook) : Except String (TradingEngine × Option OrderIntent) :=
  match evaluate_pair_arb_opportunity cfg eng obY obN with
  | .error e => .error e
  | .ok (some intent) => .ok ({ eng with no_opportunity_ticks := 0 }, some intent)
  | .ok none =>
    .ok ({ eng with no_opportunity_ticks := eng.no_opportunity_ticks + 1 }, none)

/-- `on_orderbook_update`. -/
def on_orderbook_update (cfg : TradingEngineConfig) (eng : TradingEngine)
    (obY obN : OrderBook) : Except String (TradingEngine × Option OrderIntent) :=
  let cb := check_circuit_breaker cfg eng
  if cb.2 then .ok (cb.1, none)
  else
    match cb.1.status with
    | .IDLE => handle_idle_orderbook cfg cb.1 obY obN
    | .BUILDING_PAIR => handle_building_orderbook cfg cb.1 obY obN
    | .TEMPORAL_ACTIVE => .ok (cb.1, none)
    | _ => .ok (cb.1, none)

/-- `_handle_building_fill` (the rebalance branch only logs). -/
def handle_building_fill (eng : TradingEngine) : TradingEngine × Option OrderIntent :=
  if eng.position.guaranteed_pnl > 0 then (eng.transition_to .LOCKED_PAIR, none)
  else (eng, none)

/-- `_handle_temporal_fill`. -/
def handle_temporal_fill (eng : TradingEngine) : TradingEngine × Option OrderIntent :=
  let eng :=
    if eng.position.guaranteed_pnl > 0 then eng.transition_to .LOCKED_PAIR
    else eng.transition_to .IDLE
  (eng.temporal_signal_at_ms_clear, none)

/-- `on_fill`; `apply_fill`'s `ValueError` propagates to the caller. -/
def on_fill (eng : TradingEngine) (side : Side) (qty price : ℚ) (order_id : String) :
    Except String (TradingEngine × Option OrderIntent) :=
  match eng.position.apply_fill { side := side, qty := qty, price := price } with
  | .error e => .error e
  | .ok pos =>
    let eng := { eng with
      position := pos
      open_orders := eng.open_orders.filter (fun p => p.1 ≠ order_id) }
    match eng.status with
    | .BUILDING_PAIR => .ok (handle_building_fill eng)
    | .TEMPORAL_ACTIVE => .ok (handle_temporal_fill eng)
    | _ => .ok (eng, none)

/-! ## Claim C1 -/

/-- With `price ≤ 1` the hypothetical buy cannot raise, and the fallible and
total readings of `hypo_buy` agree. -/
lemma hypo_buyE_eq_ok (p : PairPosition) (side : Side) (a pr : ℚ) (h : pr ≤ 1) :
    p.hypo_buyE side a pr = .ok (p.hypo_buy side a pr) := by
  by_cases hc : a ≤ 0 ∨ pr ≤ 0
  · simp [PairPosition.hypo_buy, PairPosition.hypo_buyE, hc]
  · push_neg at hc
    have hq : ¬ (a / pr ≤ 0) := not_le.mpr (div_pos hc.1 hc.2)
    have hpr : 0 ≤ pr ∧ pr ≤ 1 := ⟨le_of_lt hc.2, h⟩
    have hcond : ¬ (a ≤ 0 ∨ pr ≤ 0) := by push_neg; exact ⟨hc.1, hc.2⟩
    cases side <;>
      simp [PairPosition.hypo_buy, PairPosition.hypo_buyE, hcond,
        PairPosition.apply_fill, hq, hpr]

/-- Claim C1: counterexample.  At price `2 > 1` with a positive amount that
passes checks 1-2, `should_buy_more` returns no `(allowed, reason)` pair at
all: the hypothetical `apply_fill` raises `ValueError` out of it, where the
§4.2 table as claimed would fire `no_pnl_improvement`. -/
theorem C1_counterexample :
    should_buy_more {} Side.YES 1 2 (99/100) 100 100 true =
      Except.error "Price must be in [0, 1]" ∧
    should_buy_more_table {} Side.YES 1 2 (99/100) 100 100 true =
      (false, "no_pnl_improvement") := by
  constructor
  · norm_num [should_buy_more, PairPosition.total_cost, PairPosition.hypo_buyE,
      PairPosition.apply_fill]
  · norm_num [should_buy_more_table, PairPosition.hypo_buy, PairPosition.hypo_buyE,
      PairPosition.apply_fill, PairPosition.pair_cost_avg, PairPosition.avg_yes,
      PairPosition.avg_no, PairPosition.total_cost, PairPosition.leg_imbalance_usdc,
      PairPosition.guaranteed_pnl, PairPosition.payout_net, PairPosition.q_min, sbm_rest]

/-- Claim C1 (amended): for every position, side, amount, configured caps and
every price `≤ 1`, `should_buy_more` evaluates its rejection checks in the
fixed order zero_amount, exceeds_max_total, pair_cost_exceeds_net,
pair_cost_exceeds_cap, leg_imbalance, no_pnl_improvement — checks 3-6 on the
`hypo_buy` projection — and returns the reason of the first check that fires,
or approval; for a price `> 1` that passes checks 1-2 it instead raises the
hypothetical `apply_fill`'s `ValueError` (see the counterexample). -/
theorem C1_matches_table (pos : PairPosition) (side : Side)
    (usdc_amount price pair_cost_cap max_total_cost max_leg_imbalance_usdc : ℚ)
    (require_improve : Bool) (h : price ≤ 1) :
    should_buy_more pos side usdc_amount price pair_cost_cap max_total_cost
        max_leg_imbalance_usdc require_improve =
      .ok (should_buy_more_table pos side usdc_amount price pair_cost_cap
        max_total_cost max_leg_imbalance_usdc require_improve) := by
  unfold should_buy_more should_buy_more_table
  rw [hypo_buyE_eq_ok pos side usdc_amount price h]
  by_cases h1 : usdc_amount ≤ 0
  · simp [h1]
  · rw [if_neg h1, if_neg h1]
    by_cases h2 : pos.total_cost + usdc_amount > max_total_cost
    · simp [h2]
    · rw [if_neg h2, if_neg h2]
      cases hpc : (pos.hypo_buy side usdc_amount price).pair_cost_avg with
      | none =>
        simp only [hpc, Option.elim, Bool.false_eq_true, if_false, sbm_rest]
        cases require_improve <;> split_ifs <;> simp_all
      | some pc =>
        simp only [hpc, Option.elim, decide_eq_true_eq, sbm_rest]
        cases require_improve <;> split_ifs <;> simp_all

/-- Witness for `C1_matches_table` at the default configuration values. -/
theorem C1_matches_table_witness :
    ((1 : ℚ)/2 ≤ 1) ∧
    should_buy_more {} Side.YES 25 (1/2) (975/1000) 1500 100 true =
      .ok (should_buy_more_table {} Side.YES 25 (1/2) (975/1000) 1500 100 true) :=
  ⟨by norm_num,
    C1_matches_table {} Side.YES 25 (1/2) (975/1000) 1500 100 true (by norm_num)⟩

/-! ## Claim C9 -/

/-- Claim C9: refuted as stated / code bug.  On a book whose ask depth
(5 USDC) cannot fill the requested 10 USDC quote amount,
`effective_price_for_size` does not return `+∞` (embedded `none`): it returns
the volume-weighted price `0.5` of the partial fill that was available,
contradicting the claim and the method's own docstring. -/
theorem C9_partial_depth_returns_vwap :
    let book : OrderBook := { asks := [{ price := 1/2, size := 10 }] }
    book.total_ask_liquidity < 10 ∧
    book.effective_price_for_size Side.YES 10 = some (1/2) := by
  constructor
  · norm_num [OrderBook.total_ask_liquidity]
  · norm_num [OrderBook.effective_price_for_size, walk_levels]

/-! ## Claim C10 -/

/-- Claim C10: counterexample.  A fill whose price `2` lies outside `[0,1]`
but whose quantity is `0` is returned silently (`qty ≤ 0` short-circuits
before the price validation), so `apply_fill` does not raise for every
out-of-range price. -/
theorem C10_counterexample :
    ¬ (0 ≤ (2 : ℚ) ∧ (2 : ℚ) ≤ 1) ∧
    PairPosition.apply_fill {} { side := Side.YES, qty := 0, price := 2 } =
      Except.ok ({} : PairPosition) := by
  constructor
  · norm_num
  · rfl

/-- Claim C10 (amended): for every position and every fill with positive
quantity whose price lies outside `[0,1]`, `apply_fill` raises a validation
error to the caller (embedded as `Except.error`), so no mutated position is
produced; a fill with `qty ≤ 0` instead returns the position unchanged
without raising. -/
theorem C10_apply_fill_rejects_bad_price (p : PairPosition) (f : Fill)
    (hq : 0 < f.qty) (hp : f.price < 0 ∨ 1 < f.price) :
    p.apply_fill f = Except.error "Price must be in [0, 1]" := by
  have h1 : ¬ f.qty ≤ 0 := not_le.mpr hq
  have h2 : ¬ (0 ≤ f.price ∧ f.price ≤ 1) := by
    rcases hp with h | h
    · exact fun hc => absurd hc.1 (not_le.mpr h)
    · exact fun hc => absurd hc.2 (not_le.mpr h)
  simp [PairPosition.apply_fill, h1, h2]

/-- Witness for `C10_apply_fill_rejects_bad_price` at qty 1, price 2. -/
theorem C10_apply_fill_rejects_bad_price_witness :
    PairPosition.apply_fill {} { side := Side.YES, qty := 1, price := 2 } =
      Except.error "Price must be in [0, 1]" :=
  C10_apply_fill_rejects_bad_price {} { side := Side.YES, qty := 1, price := 2 }
    (by norm_num) (Or.inr (by norm_num))

/-! ## Claim C2 -/

/-- Claim C2: refuted as stated / code bug.  On the exact input of the
repository's own `test_tier_a_single_source_finalizes` (fresh engine,
MATCH_STARTED from Tier-B `opendota`, then MATCH_ENDED from Tier-A `grid`
with winner `team_a`), the engine ends in `PENDING_CONFIRM`, not `FINAL`,
and `on_event` returns a `TruthDelta`, not a `TruthFinal`:
`_on_event_live` enters PENDING_CONFIRM without ever consulting
`_should_finalize`.  Only the `winner_if_final = "team_a"` part of the claim
holds (confidence 0.90 ≥ 0.85 in PENDING_CONFIRM). -/
theorem C2_tier_a_match_ended_stays_pending :
    let cfg : TruthEngineConfig := {}
    let e1 : MatchEvent := { event_type := .MATCH_STARTED, source := "opendota",
                             source_tier := .TIER_B, timestamp_ms := 1000 }
    let e2 : MatchEvent := { event_type := .MATCH_ENDED, source := "grid",
                             source_tier := .TIER_A, timestamp_ms := 5000,
                             payload := { winner_team_id := some "team_a" } }
    let s0 : TruthState := { team_a_id := "team_a", team_b_id := "team_b" }
    let r2 := on_event cfg 5000 (on_event cfg 1000 s0 e1).1 e2
    r2.1.status = TruthStatus.PENDING_CONFIRM ∧
    r2.1.winner_if_final = some "team_a" ∧
    r2.2 = some (TruthSignal.delta { delta_type := "status", confidence := 9/10,
                                     sources := ["grid"] }) := by
  simp only [on_event, dispatch, TruthState.is_duplicate, dedup_key,
    TruthState.is_out_of_order, on_event_pre_match, on_event_live,
    enter_pending_confirm, TruthState.winner_if_final,
    TruthState.is_effectively_final]
  norm_num

/-! ## Claim C8 -/

/-- Claim C8: counterexample.  With a balanced position and equal best asks
(`0.5` on both books), `_select_leg_to_buy` picks NO: the tie is broken in
favour of NO (`yes_ask < no_ask` is false), not YES as claimed. -/
theorem C8_counterexample :
    let obY : OrderBook := { asks := [{ price := 1/2, size := 100 }] }
    let obN : OrderBook := { asks := [{ price := 1/2, size := 100 }] }
    let eng : TradingEngine := {}
    obY.best_ask = obN.best_ask ∧
    eng.position.q_yes - eng.position.q_no = 0 ∧
    select_leg_to_buy eng obY obN = some Side.NO := by
  refine ⟨rfl, by norm_num, ?_⟩
  simp [select_leg_to_buy, OrderBook.best_ask]

/-- Claim C8 (amended): leg selection on an order-book tick: if
`q_yes − q_no > 20` the chosen side is NO; if `< −20` it is YES; otherwise
the side with the strictly lower best ask is chosen, with a tie in best asks
broken in favour of NO (not YES); a side whose ask is absent loses to the
side with an ask; if both best asks are absent, no side is chosen. -/
theorem C8_select_leg (eng : TradingEngine) (obY obN : OrderBook) :
    (eng.position.q_yes - eng.position.q_no > 20 →
      select_leg_to_buy eng obY obN = some Side.NO)
    ∧ (eng.position.q_yes - eng.position.q_no < -20 →
      select_leg_to_buy eng obY obN = some Side.YES)
    ∧ (-20 ≤ eng.position.q_yes - eng.position.q_no →
       eng.position.q_yes - eng.position.q_no ≤ 20 →
      ((obY.best_ask = none → obN.best_ask = none →
          select_leg_to_buy eng obY obN = none)
      ∧ (∀ na, obY.best_ask = none → obN.best_ask = some na →
          select_leg_to_buy eng obY obN = some Side.NO)
      ∧ (∀ ya, obY.best_ask = some ya → obN.best_ask = none →
          select_leg_to_buy eng obY obN = some Side.YES)
      ∧ (∀ ya na, obY.best_ask = some ya → obN.best_ask = some na →
          select_leg_to_buy eng obY obN =
            some (if ya < na then Side.YES else Side.NO)))) := by
  unfold select_leg_to_buy
  refine ⟨fun h => ?_, fun h => ?_, fun h1 h2 => ?_⟩
  · simp [h]
  · rw [if_neg (by linarith), if_pos h]
  · rw [if_neg (by linarith), if_neg (by linarith)]
    refine ⟨fun hy hn => ?_, fun na hy hn => ?_, fun ya hy hn => ?_,
      fun ya na hy hn => ?_⟩ <;> simp [hy, hn]
    split <;> rfl

/-- Witness for `C8_select_leg`: balanced empty position, asks 0.4 vs 0.6. -/
theorem C8_select_leg_witness :
    select_leg_to_buy {} { asks := [{ price := 2/5, size := 10 }] }
        { asks := [{ price := 3/5, size := 10 }] } =
      some (if (2/5 : ℚ) < 3/5 then Side.YES else Side.NO) :=
  ((C8_select_leg {} { asks := [{ price := 2/5, size := 10 }] }
      { asks := [{ price := 3/5, size := 10 }] }).2.2 (by norm_num)
    (by norm_num)).2.2.2 (2/5) (3/5) rfl rfl

/-! ## Truth engine structural lemmas -/

lemma is_duplicate_of_mem (s : TruthState) (e : MatchEvent)
    (h : dedup_key e ∈ s.seen_event_ids) : s.is_duplicate e = (true, s) := by
  simp [TruthState.is_duplicate, h]

lemma is_duplicate_of_not_mem (s : TruthState) (e : MatchEvent)
    (h : dedup_key e ∉ s.seen_event_ids) :
    s.is_duplicate e =
      (false, { s with seen_event_ids := s.seen_event_ids ++ [dedup_key e] }) := by
  simp [TruthState.is_duplicate, h]

/-- `_is_out_of_order` only ever writes `last_seq`. -/
lemma is_out_of_order_shape (s : TruthState) (cfg : TruthEngineConfig)
    (e : MatchEvent) :
    ∃ ls, (s.is_out_of_order cfg e).2 = { s with last_seq := ls } := by
  unfold TruthState.is_out_of_order
  rcases hsq : e.seq with _ | sq <;> rcases hls : s.last_seq with _ | ls <;>
    simp [hsq, hls] <;> split_ifs <;> exact ⟨_, rfl⟩

/-- The admission verdict of `_is_out_of_order` does not depend on
`seen_event_ids`. -/
lemma is_out_of_order_fst_seen (s : TruthState) (l : List DedupKey)
    (cfg : TruthEngineConfig) (e : MatchEvent) :
    (TruthState.is_out_of_order { s with seen_event_ids := l } cfg e).1 =
      (s.is_out_of_order cfg e).1 := by
  unfold TruthState.is_out_of_order
  rcases hsq : e.seq with _ | sq <;> rcases hls : s.last_seq with _ | ls <;>
    simp [hsq, hls] <;> split_ifs <;> rfl

/-- A duplicate event is dropped without touching the state. -/
lemma on_event_skip (cfg : TruthEngineConfig) (now_ms : Int) (s : TruthState)
    (e : MatchEvent) (h : dedup_key e ∈ s.seen_event_ids) :
    on_event cfg now_ms s e = (s, none) := by
  unfold on_event
  rw [is_duplicate_of_mem s e h]
  rfl

/-- An admitted event reaches the status dispatch on the state with its key
recorded, `last_seq` possibly advanced and `last_event_ms` raised. -/
lemma on_event_admitted (cfg : TruthEngineConfig) (now_ms : Int) (s : TruthState)
    (e : MatchEvent) (hdup : dedup_key e ∉ s.seen_event_ids)
    (hooo : (s.is_out_of_order cfg e).1 = false) :
    ∃ ls, on_event cfg now_ms s e =
      dispatch cfg now_ms
        { s with
          seen_event_ids := s.seen_event_ids ++ [dedup_key e]
          last_seq := ls
          last_event_ms := max s.last_event_ms e.timestamp_ms } e := by
  obtain ⟨ls, hshape⟩ :=
    is_out_of_order_shape { s with seen_event_ids := s.seen_event_ids ++ [dedup_key e] }
      cfg e
  have h1 : (TruthState.is_out_of_order
      { s with seen_event_ids := s.seen_event_ids ++ [dedup_key e] } cfg e).1 = false := by
    rw [is_out_of_order_fst_seen]
    exact hooo
  refine ⟨ls, ?_⟩
  unfold on_event
  rw [is_duplicate_of_not_mem s e hdup]
  simp only [h1, Bool.false_eq_true, if_false, hshape]

/-- An event admitted by dedup but dropped as out-of-order only records its
key (and possibly `last_seq`). -/
lemma on_event_out_of_order (cfg : TruthEngineConfig) (now_ms : Int)
    (s : TruthState) (e : MatchEvent) (hdup : dedup_key e ∉ s.seen_event_ids)
    (hooo : (s.is_out_of_order cfg e).1 = true) :
    ∃ ls, on_event cfg now_ms s e =
      ({ s with seen_event_ids := s.seen_event_ids ++ [dedup_key e]
                last_seq := ls }, none) := by
  obtain ⟨ls, hshape⟩ :=
    is_out_of_order_shape { s with seen_event_ids := s.seen_event_ids ++ [dedup_key e] }
      cfg e
  have h1 : (TruthState.is_out_of_order
      { s with seen_event_ids := s.seen_event_ids ++ [dedup_key e] } cfg e).1 = true := by
    rw [is_out_of_order_fst_seen]
    exact hooo
  refine ⟨ls, ?_⟩
  unfold on_event
  rw [is_duplicate_of_not_mem s e hdup]
  simp only [h1, if_true, hshape]
  rfl

/-- `_add_confirmation` never touches `seen_event_ids`. -/
lemma seen_add_confirmation (s : TruthState) (src : String) (t : DataSourceTier) :
    (add_confirmation s src t).seen_event_ids = s.seen_event_ids := by
  unfold add_confirmation
  split_ifs
  · rfl
  · cases t <;> rfl

/-- `_enter_pending_confirm` never touches `seen_event_ids`. -/
lemma seen_enter_pending (s : TruthState) (e : MatchEvent) :
    (enter_pending_confirm s e).1.seen_event_ids = s.seen_event_ids := rfl

/-- `_finalize` never touches `seen_event_ids`. -/
lemma seen_finalize (now_ms : Int) (s : TruthState) :
    (finalize_truth now_ms s).1.seen_event_ids = s.seen_event_ids := rfl

/-- The `PRE_MATCH` handler never touches `seen_event_ids`. -/
lemma seen_pre_match (s : TruthState) (e : MatchEvent) :
    (on_event_pre_match s e).1.seen_event_ids = s.seen_event_ids := by
  unfold on_event_pre_match
  obtain ⟨et, src, tier, ts, pl, sid, sq⟩ := e
  cases et <;> rfl

/-- The `LIVE` handler never touches `seen_event_ids`. -/
lemma seen_live (s : TruthState) (e : MatchEvent) :
    (on_event_live s e).1.seen_event_ids = s.seen_event_ids := by
  unfold on_event_live
  obtain ⟨et, src, tier, ts, pl, sid, sq⟩ := e
  cases et <;> first
    | rfl
    | (dsimp only; split <;> rfl)

/-- The `PAUSED` handler never touches `seen_event_ids`. -/
lemma seen_paused (s : TruthState) (e : MatchEvent) :
    (on_event_paused s e).1.seen_event_ids = s.seen_event_ids := by
  unfold on_event_paused
  obtain ⟨et, src, tier, ts, pl, sid, sq⟩ := e
  cases et <;> rfl

/-- The `PENDING_CONFIRM` handler never touches `seen_event_ids`. -/
lemma seen_pending (cfg : TruthEngineConfig) (now_ms : Int) (s : TruthState)
    (e : MatchEvent) :
    (on_event_pending cfg now_ms s e).1.seen_event_ids = s.seen_event_ids := by
  unfold on_event_pending
  split
  · rfl
  · dsimp only
    split
    · split
      · simp [seen_finalize, seen_add_confirmation]
      · simp [seen_add_confirmation]
    · rfl

/-- The status dispatch never touches `seen_event_ids`. -/
lemma seen_dispatch (cfg : TruthEngineConfig) (now_ms : Int) (s : TruthState)
    (e : MatchEvent) :
    (dispatch cfg now_ms s e).1.seen_event_ids = s.seen_event_ids := by
  unfold dispatch
  obtain ⟨st, ta, tb, sa, sb, mi, ri, c, w, lm, em, fm, seen, ls, sc⟩ := s
  cases st <;>
    simp [seen_pre_match, seen_live, seen_paused, seen_pending]

/-- After `on_event`, the seen set is the old one, extended by the event's
key when it was new. -/
lemma on_event_seen (cfg : TruthEngineConfig) (now_ms : Int) (s : TruthState)
    (e : MatchEvent) :
    (on_event cfg now_ms s e).1.seen_event_ids =
      if dedup_key e ∈ s.seen_event_ids then s.seen_event_ids
      else s.seen_event_ids ++ [dedup_key e] := by
  by_cases h : dedup_key e ∈ s.seen_event_ids
  · rw [on_event_skip cfg now_ms s e h, if_pos h]
  · rw [if_neg h]
    by_cases hooo : (s.is_out_of_order cfg e).1 = true
    · obtain ⟨ls, heq⟩ := on_event_out_of_order cfg now_ms s e h hooo
      rw [heq]
    · obtain ⟨ls, heq⟩ :=
        on_event_admitted cfg now_ms s e h (by simpa using hooo)
      rw [heq, seen_dispatch]

lemma run_events_cons (cfg : TruthEngineConfig) (s : TruthState)
    (p : Int × MatchEvent) (es : List (Int × MatchEvent)) :
    run_events cfg s (p :: es) = run_events cfg (on_event cfg p.1 s p.2).1 es := rfl

/-- Keys once seen stay seen across any run. -/
lemma run_events_seen_mono (cfg : TruthEngineConfig)
    (es : List (Int × MatchEvent)) :
    ∀ (s : TruthState) (k : DedupKey), k ∈ s.seen_event_ids →
      k ∈ (run_events cfg s es).seen_event_ids := by
  induction es with
  | nil => exact fun s k h => h
  | cons p tl ih =>
    intro s k h
    rw [run_events_cons]
    apply ih
    rw [on_event_seen]
    split_ifs
    · exact h
    · exact List.mem_append_left _ h

/-- After a run, every processed event's key is in the seen set. -/
lemma run_events_all_seen (cfg : TruthEngineConfig)
    (es : List (Int × MatchEvent)) :
    ∀ (s : TruthState), ∀ p ∈ es, dedup_key p.2 ∈ (run_events cfg s es).seen_event_ids := by
  induction es with
  | nil => intro s p hp; cases hp
  | cons q tl ih =>
    intro s p hp
    rcases List.mem_cons.mp hp with hp | hp
    · subst hp
      rw [run_events_cons]
      apply run_events_seen_mono
      rw [on_event_seen]
      split_ifs with hmem
      · exact hmem
      · exact List.mem_append_right _ (List.mem_singleton.mpr rfl)
    · rw [run_events_cons]
      exact ih _ p hp

/-- A run consisting only of already-seen events is a no-op. -/
lemma run_events_noop (cfg : TruthEngineConfig) (es : List (Int × MatchEvent)) :
    ∀ (s : TruthState), (∀ p ∈ es, dedup_key p.2 ∈ s.seen_event_ids) →
      run_events cfg s es = s := by
  induction es with
  | nil => intro s _; rfl
  | cons q tl ih =>
    intro s h
    rw [run_events_cons, on_event_skip cfg q.1 s q.2 (h q (List.mem_cons_self q tl))]
    exact ih s (fun p hp => h p (List.mem_cons_of_mem q hp))

/-! ## Claim C5 -/

/-- Claim C5: confirmed.  The truth engine is idempotent under replay: from
any state, processing a list of (clock, event) pairs and then the same list
again ends in the same state as processing it once — on the second pass
every event is recognised as a duplicate (by `source_event_id` or content
hash) and dropped without mutation. -/
theorem C5_replay_idempotent (cfg : TruthEngineConfig) (s : TruthState)
    (es : List (Int × MatchEvent)) :
    run_events cfg s (es ++ es) = run_events cfg s es := by
  have hsplit : run_events cfg s (es ++ es) =
      run_events cfg (run_events cfg s es) es := by
    simp [run_events, List.foldl_append]
  rw [hsplit]
  exact run_events_noop cfg es (run_events cfg s es)
    (fun p hp => run_events_all_seen cfg es s p hp)

/-! ## Claim C4 -/

/-- Claim C4: confirmed.  In `PENDING_CONFIRM`, an admitted `MATCH_ENDED`
whose payload winner differs from the recorded `winner_team_id` reverts the
engine to `LIVE`, clears `winner_team_id`, `ended_at_ms` and
`sources_confirming`, zeroes the confidence, and returns a `TruthDelta`
with reason "contradiction". -/
theorem C4_contradiction_resets (cfg : TruthEngineConfig) (now_ms : Int)
    (s : TruthState) (e : MatchEvent)
    (hst : s.status = TruthStatus.PENDING_CONFIRM)
    (het : e.event_type = MatchEventType.MATCH_ENDED)
    (hdup : dedup_key e ∉ s.seen_event_ids)
    (hooo : (s.is_out_of_order cfg e).1 = false)
    (hw : e.payload.winner_team_id ≠ s.winner_team_id) :
    (on_event cfg now_ms s e).1.status = TruthStatus.LIVE ∧
    (on_event cfg now_ms s e).1.winner_team_id = none ∧
    (on_event cfg now_ms s e).1.ended_at_ms = none ∧
    (on_event cfg now_ms s e).1.sources_confirming = [] ∧
    (on_event cfg now_ms s e).1.confidence = 0 ∧
    (on_event cfg now_ms s e).2 = some (TruthSignal.delta
      { delta_type := "status", reason := some "contradiction",
        sources := [e.source] }) := by
  obtain ⟨ls, heq⟩ := on_event_admitted cfg now_ms s e hdup hooo
  rw [heq]
  simp [dispatch, on_event_pending, hst, het, hw]

/-- Witness for `C4_contradiction_resets`: a pending state recording winner
`team_a` receives a `MATCH_ENDED` for `team_b`. -/
theorem C4_contradiction_resets_witness :
    ((on_event {} 5100
        { status := TruthStatus.PENDING_CONFIRM, confidence := 4/5,
          winner_team_id := some "team_a", ended_at_ms := some 5000,
          sources_confirming := ["opendota"], last_event_ms := 5000 }
        { event_type := MatchEventType.MATCH_ENDED, source := "pandascore",
          source_tier := DataSourceTier.TIER_B, timestamp_ms := 5100,
          source_event_id := some "ps_456",
          payload := { winner_team_id := some "team_b" } }).1.status =
      TruthStatus.LIVE) ∧
    ((on_event {} 5100
        { status := TruthStatus.PENDING_CONFIRM, confidence := 4/5,
          winner_team_id := some "team_a", ended_at_ms := some 5000,
          sources_confirming := ["opendota"], last_event_ms := 5000 }
        { event_type := MatchEventType.MATCH_ENDED, source := "pandascore",
          source_tier := DataSourceTier.TIER_B, timestamp_ms := 5100,
          source_event_id := some "ps_456",
          payload := { winner_team_id := some "team_b" } }).1.confidence = 0) := by
  have h := C4_contradiction_resets {} 5100
    { status := TruthStatus.PENDING_CONFIRM, confidence := 4/5,
      winner_team_id := some "team_a", ended_at_ms := some 5000,
      sources_confirming := ["opendota"], last_event_ms := 5000 }
    { event_type := MatchEventType.MATCH_ENDED, source := "pandascore",
      source_tier := DataSourceTier.TIER_B, timestamp_ms := 5100,
      source_event_id := some "ps_456",
      payload := { winner_team_id := some "team_b" } }
    rfl rfl (by simp [dedup_key]) (by norm_num [TruthState.is_out_of_order])
    (by simp)
  exact ⟨h.1, h.2.2.2.2.1⟩

/-! ## Claim C3 -/

/-- `_add_confirmation` never drops confidence below the minimum of the old
confidence and the confirming tier's cap. -/
lemma add_confirmation_conf (s : TruthState) (src : String) (t : DataSourceTier) :
    min s.confidence (tier_cap t) ≤ (add_confirmation s src t).confidence := by
  unfold add_confirmation
  split_ifs
  · exact min_le_left _ _
  · cases t <;> simp only [tier_cap] <;>
      exact le_min (min_le_right _ _) ((min_le_left _ _).trans (by linarith))

/-- Claim C3: counterexample.  With `confirm_threshold = 0.99`,
`required_sources_for_final = 10` and no configured tier-A sources, the run
MATCH_STARTED; MATCH_ENDED (Tier A, conf 0.90); MATCH_ENDED (Tier B, conf
min(0.95, 0.98) = 0.95) stays in PENDING_CONFIRM, and a further agreeing
Tier-C confirmation clamps the confidence down to its 0.90 cap: the
confidence strictly decreases between two processed events of a single
PENDING_CONFIRM episode. -/
theorem C3_counterexample :
    let cfg : TruthEngineConfig :=
      { confirm_threshold := 99/100, required_sources_for_final := 10,
        tier_a_sources := [] }
    let e1 : MatchEvent :=
      { event_type := .MATCH_STARTED, source := "s1", source_tier := .TIER_B,
        timestamp_ms := 1000 }
    let e2 : MatchEvent :=
      { event_type := .MATCH_ENDED, source := "s1", source_tier := .TIER_A,
        timestamp_ms := 2000, payload := { winner_team_id := some "team_a" } }
    let e3 : MatchEvent :=
      { event_type := .MATCH_ENDED, source := "s2", source_tier := .TIER_B,
        timestamp_ms := 3000, payload := { winner_team_id := some "team_a" } }
    let e4 : MatchEvent :=
      { event_type := .MATCH_ENDED, source := "s3", source_tier := .TIER_C,
        timestamp_ms := 4000, payload := { winner_team_id := some "team_a" } }
    let s3 := run_events cfg {} [(1000, e1), (2000, e2), (3000, e3)]
    s3.status = TruthStatus.PENDING_CONFIRM ∧
    (on_event cfg 4000 s3 e4).1.status = TruthStatus.PENDING_CONFIRM ∧
    (on_event cfg 4000 s3 e4).1.confidence < s3.confidence := by
  norm_num +decide [run_events, on_event, dispatch, TruthState.is_duplicate,
    dedup_key, TruthState.is_out_of_order, on_event_pre_match, on_event_live,
    enter_pending_confirm, on_event_pending, add_confirmation, should_finalize,
    min_def]

/-- Claim C3 (amended): within a single PENDING_CONFIRM episode (the event
leaves the engine in PENDING_CONFIRM: no contradiction, no finalization),
each processed event leaves the confidence at least
`min(previous confidence, cap of the confirming tier)` — caps 1.0 / 0.95 /
0.90 for tiers A / B / C.  Confidence cannot decrease unless it already
exceeds the incoming confirmation's tier cap, which a lower-tier
confirmation clamps down to (see the counterexample). -/
theorem C3_conf_lower_bound (cfg : TruthEngineConfig) (now_ms : Int)
    (s : TruthState) (e : MatchEvent)
    (h1 : s.status = TruthStatus.PENDING_CONFIRM)
    (h2 : (on_event cfg now_ms s e).1.status = TruthStatus.PENDING_CONFIRM) :
    min s.confidence (tier_cap e.source_tier) ≤
      (on_event cfg now_ms s e).1.confidence := by
  by_cases hdup : dedup_key e ∈ s.seen_event_ids
  · rw [on_event_skip cfg now_ms s e hdup]
    exact min_le_left _ _
  · by_cases hooo : (s.is_out_of_order cfg e).1 = true
    · obtain ⟨ls, heq⟩ := on_event_out_of_order cfg now_ms s e hdup hooo
      rw [heq]
      exact min_le_left _ _
    · obtain ⟨ls, heq⟩ :=
        on_event_admitted cfg now_ms s e hdup (by simpa using hooo)
      rw [heq] at h2 ⊢
      simp only [dispatch, h1] at h2 ⊢
      unfold on_event_pending at h2 ⊢
      split_ifs at h2 ⊢ with hc1
      · exact min_le_left _ _
      · dsimp only at h2 ⊢
        split_ifs at h2 ⊢ with hc2 hc3 <;>
          exact add_confirmation_conf _ e.source e.source_tier

/-- Witness for `C3_conf_lower_bound`: a repeated confirmation from an
already-counted source leaves the confidence at 0.8. -/
theorem C3_conf_lower_bound_witness :
    min (4/5 : ℚ) (tier_cap DataSourceTier.TIER_C) ≤
      (on_event {} 1100
        { status := TruthStatus.PENDING_CONFIRM, confidence := 4/5,
          winner_team_id := some "w", sources_confirming := ["a"],
          last_event_ms := 1000 }
        { event_type := MatchEventType.MATCH_ENDED, source := "a",
          source_tier := DataSourceTier.TIER_C, timestamp_ms := 1100,
          payload := { winner_team_id := some "w" } }).1.confidence :=
  C3_conf_lower_bound {} 1100
    { status := TruthStatus.PENDING_CONFIRM, confidence := 4/5,
      winner_team_id := some "w", sources_confirming := ["a"],
      last_event_ms := 1000 }
    { event_type := MatchEventType.MATCH_ENDED, source := "a",
      source_tier := DataSourceTier.TIER_C, timestamp_ms := 1100,
      payload := { winner_team_id := some "w" } }
    rfl
    (by norm_num +decide [on_event, dispatch, TruthState.is_duplicate, dedup_key,
      TruthState.is_out_of_order, on_event_pending, add_confirmation,
      should_finalize])

/-! ## Trading engine structural lemmas -/

/-- `halt` always leaves the engine in `HALT`. -/
lemma halt_status (eng : TradingEngine) (r : String) :
    (eng.halt r).1.status = TradingStatus.HALT := by
  unfold TradingEngine.halt
  split_ifs with h
  · exact h
  · rfl

/-- A tripped circuit breaker leaves the engine in `HALT`. -/
lemma check_circuit_breaker_status_halt (cfg : TradingEngineConfig)
    (eng : TradingEngine)
    (h : cfg.max_consecutive_rejects ≤ eng.consecutive_rejects ∨
      cfg.max_cancel_failures ≤ eng.consecutive_cancel_failures) :
    (check_circuit_breaker cfg eng).1.status = TradingStatus.HALT := by
  unfold check_circuit_breaker
  dsimp only
  split_ifs with hH hcf hcr
  · exact hH
  · exact halt_status _ _
  · exact halt_status _ _
  · rcases h with h | h
    · exact absurd h hcr
    · exact absurd h hcf

/-! ## Claim C6 -/

/-- Claim C6: counterexample.  A trading engine one rejection short of the
breaker, with a MATCHED order "m" (non-terminal) and a PENDING order "p",
does transition to HALT on the third `on_order_rejected`, but entering HALT
emits a cancel intent only for "p": `_cancel_all_orders` skips the
non-terminal MATCHED order, contrary to the claim. -/
theorem C6_counterexample :
    let cfg : TradingEngineConfig := {}
    let eng : TradingEngine :=
      { status := .BUILDING_PAIR, consecutive_rejects := 2,
        open_orders := [("m", { status := .MATCHED }), ("p", { status := .PENDING })] }
    (on_order_rejected cfg eng "z" "rej").status = TradingStatus.HALT ∧
    (eng.halt "manual").2 = [{ order_id := "p", reason := "cancel_all" }] := by
  exact ⟨rfl, rfl⟩

/-- Claim C6 (amended): when `consecutive_rejects` reaches
`max_consecutive_rejects` through `on_order_rejected`, the engine transitions
to HALT; entering HALT emits a `CancelIntent` exactly for the open orders
whose status is PENDING or PLACED — MATCHED and MINED orders, though
non-terminal, receive none (and in the `on_order_rejected` path the intents
are discarded internally, as the source drops `halt`'s return value). -/
theorem C6_halt_and_cancels :
    (∀ (cfg : TradingEngineConfig) (eng : TradingEngine) (oid r : String),
      cfg.max_consecutive_rejects ≤ eng.consecutive_rejects + 1 →
      (on_order_rejected cfg eng oid r).status = TradingStatus.HALT)
    ∧ (∀ (eng : TradingEngine) (r oid : String) (o : Order),
      eng.status ≠ TradingStatus.HALT →
      (oid, o) ∈ eng.open_orders →
      (o.status = OrderStatus.PLACED ∨ o.status = OrderStatus.PENDING) →
      ({ order_id := oid, reason := "cancel_all" } : CancelIntent) ∈ (eng.halt r).2)
    ∧ (∀ (eng : TradingEngine) (r : String) (c : CancelIntent),
      eng.status ≠ TradingStatus.HALT →
      c ∈ (eng.halt r).2 →
      ∃ o, (c.order_id, o) ∈ eng.open_orders ∧
        (o.status = OrderStatus.PLACED ∨ o.status = OrderStatus.PENDING)) := by
  refine ⟨?_, ?_, ?_⟩
  · intro cfg eng oid r hmax
    unfold on_order_rejected
    exact check_circuit_breaker_status_halt cfg _ (Or.inl hmax)
  · intro eng r oid o hH hmem hstat
    unfold TradingEngine.halt
    rw [if_neg hH]
    dsimp only
    unfold TradingEngine.cancel_all_orders
    apply List.mem_map.mpr
    refine ⟨(oid, o), ?_, rfl⟩
    rw [List.mem_filter]
    refine ⟨hmem, ?_⟩
    rcases hstat with h | h <;> simp [h]
  · intro eng r c hH hc
    unfold TradingEngine.halt at hc
    rw [if_neg hH] at hc
    dsimp only at hc
    unfold TradingEngine.cancel_all_orders at hc
    obtain ⟨p, hp, hcp⟩ := List.mem_map.mp hc
    rw [List.mem_filter] at hp
    have hoid : c.order_id = p.1 := by rw [← hcp]
    refine ⟨p.2, ?_, ?_⟩
    · rw [hoid]
      exact hp.1
    · simpa using hp.2

/-- Witness for `C6_halt_and_cancels`: the trip at the third rejection, and
the intent for a PENDING order on a manual halt. -/
theorem C6_halt_and_cancels_witness :
    (on_order_rejected {}
        { status := TradingStatus.BUILDING_PAIR, consecutive_rejects := 2 }
        "z" "r").status = TradingStatus.HALT ∧
    ({ order_id := "p", reason := "cancel_all" } : CancelIntent) ∈
      (TradingEngine.halt
        { status := TradingStatus.IDLE,
          open_orders := [("p", { status := OrderStatus.PENDING })] }
        "x").2 :=
  ⟨C6_halt_and_cancels.1 {}
      { status := TradingStatus.BUILDING_PAIR, consecutive_rejects := 2 }
      "z" "r" (by decide),
    C6_halt_and_cancels.2.1
      { status := TradingStatus.IDLE,
        open_orders := [("p", { status := OrderStatus.PENDING })] }
      "x" "p" { status := OrderStatus.PENDING } (by decide)
      (List.mem_singleton.mpr rfl) (Or.inr rfl)⟩

/-! ## Claim C7 -/

/-- Claim C7: counterexample.  `halt` moves a RESOLVED engine to HALT (its
only guard is against already being in HALT), and `resolve` unconditionally
moves a HALT engine to RESOLVED: RESOLVED is not terminal and HALT is not
exited only by `resume_from_halt`. -/
theorem C7_counterexample :
    ((({ status := TradingStatus.RESOLVED } : TradingEngine).halt "x").1.status =
      TradingStatus.HALT) ∧
    (({ status := TradingStatus.HALT } : TradingEngine).resolve.status =
      TradingStatus.RESOLVED) :=
  ⟨rfl, rfl⟩

/-- Claim C7 (amended): once RESOLVED, the status survives
`resume_from_halt`, `finalize`, `resolve`, `on_tick`, `on_fill` and
`on_orderbook_update` (the latter when the circuit-breaker counters are below
their thresholds), but `halt` — called directly or by a circuit-breaker trip
— moves RESOLVED to HALT.  HALT survives `on_orderbook_update`, `on_fill`,
`on_tick`, `finalize` and `halt`, and is exited both by `resume_from_halt`
(to IDLE) and by the unguarded `resolve` (to RESOLVED). -/
theorem C7_terminal_states (cfg : TradingEngineConfig) (eng : TradingEngine) :
    (eng.status = TradingStatus.RESOLVED →
      (eng.resume_from_halt.1.status = TradingStatus.RESOLVED)
      ∧ (eng.finalize.1.status = TradingStatus.RESOLVED)
      ∧ (eng.resolve.status = TradingStatus.RESOLVED)
      ∧ (∀ now_ms, (on_tick cfg eng now_ms).1.status = TradingStatus.RESOLVED)
      ∧ (∀ side qty price oid e' i, on_fill eng side qty price oid = .ok (e', i) →
          e'.status = TradingStatus.RESOLVED)
      ∧ (eng.consecutive_rejects < cfg.max_consecutive_rejects →
         eng.consecutive_cancel_failures < cfg.max_cancel_failures →
         ∀ obY obN e' i, on_orderbook_update cfg eng obY obN = .ok (e', i) →
          e'.status = TradingStatus.RESOLVED)
      ∧ ((eng.halt "r").1.status = TradingStatus.HALT))
    ∧ (eng.status = TradingStatus.HALT →
      (∀ obY obN, on_orderbook_update cfg eng obY obN = .ok (eng, none))
      ∧ (∀ side qty price oid e' i, on_fill eng side qty price oid = .ok (e', i) →
          e'.status = TradingStatus.HALT)
      ∧ (∀ now_ms, (on_tick cfg eng now_ms).1.status = TradingStatus.HALT)
      ∧ (eng.finalize = (eng, []))
      ∧ (∀ r, eng.halt r = (eng, []))
      ∧ (eng.resume_from_halt.1.status = TradingStatus.IDLE)
      ∧ (eng.resolve.status = TradingStatus.RESOLVED)) := by
  constructor
  · intro hR
    refine ⟨?_, ?_, ?_, ?_, ?_, ?_, ?_⟩
    · simp [TradingEngine.resume_from_halt, hR]
    · simp [TradingEngine.finalize, hR]
    · simp [TradingEngine.resolve, TradingEngine.transition_to]
    · intro now_ms
      simp [on_tick, hR]
    · intro side qty price oid e' i hok
      obtain ⟨st, pos0, oo, cr, ccf, nt, tsm⟩ := eng
      dsimp only at hR
      subst hR
      unfold on_fill at hok
      cases happ : PairPosition.apply_fill pos0
          { side := side, qty := qty, price := price } with
      | error msg => rw [happ] at hok; simp at hok
      | ok pos =>
        rw [happ] at hok
        dsimp only at hok
        obtain ⟨he, hi⟩ := (by simpa using hok : _ ∧ _)
        subst he
        rfl
    · intro hr1 hr2 obY obN e' i hok
      have h1 : ¬ (eng.consecutive_cancel_failures ≥ cfg.max_cancel_failures) :=
        not_le.mpr hr2
      have h2 : ¬ (eng.consecutive_rejects ≥ cfg.max_consecutive_rejects) :=
        not_le.mpr hr1
      obtain ⟨st, pos0, oo, cr, ccf, nt, tsm⟩ := eng
      dsimp only at hR h1 h2
      subst hR
      unfold on_orderbook_update check_circuit_breaker at hok
      simp [h1, h2] at hok
      obtain ⟨he, hi⟩ := hok
      subst he
      rfl
    · simp [TradingEngine.halt, hR, TradingEngine.transition_to]
  · intro hH
    refine ⟨?_, ?_, ?_, ?_, ?_, ?_, ?_⟩
    · intro obY obN
      unfold on_orderbook_update check_circuit_breaker
      simp [hH]
    · intro side qty price oid e' i hok
      obtain ⟨st, pos0, oo, cr, ccf, nt, tsm⟩ := eng
      dsimp only at hH
      subst hH
      unfold on_fill at hok
      cases happ : PairPosition.apply_fill pos0
          { side := side, qty := qty, price := price } with
      | error msg => rw [happ] at hok; simp at hok
      | ok pos =>
        rw [happ] at hok
        dsimp only at hok
        obtain ⟨he, hi⟩ := (by simpa using hok : _ ∧ _)
        subst he
        rfl
    · intro now_ms
      simp [on_tick, hH]
    · simp [TradingEngine.finalize, hH]
    · intro r
      simp [TradingEngine.halt, hH]
    · simp [TradingEngine.resume_from_halt, TradingEngine.transition_to, hH]
    · simp [TradingEngine.resolve, TradingEngine.transition_to]

/-- Witness for `C7_terminal_states` at concrete RESOLVED and HALT engines. -/
theorem C7_terminal_states_witness :
    (({ status := TradingStatus.RESOLVED } : TradingEngine).resolve.status =
      TradingStatus.RESOLVED) ∧
    ((({ status := TradingStatus.RESOLVED } : TradingEngine).halt "r").1.status =
      TradingStatus.HALT) ∧
    (({ status := TradingStatus.HALT } : TradingEngine).resume_from_halt.1.status =
      TradingStatus.IDLE) :=
  ⟨((C7_terminal_states {} { status := TradingStatus.RESOLVED }).1 rfl).2.2.1,
   ((C7_terminal_states {} { status := TradingStatus.RESOLVED }).1 rfl).2.2.2.2.2.2,
   ((C7_terminal_states {} { status := TradingStatus.HALT }).2 rfl).2.2.2.2.2.1⟩

end Polyloly
